import Mathlib

/-!
Verification of the W3C-Flo lobby handler, control-plane stream and map
model against the repository source.

The development shallowly embeds:
  * `crates/client/src/lan/game/lobby.rs` — the lobby-phase state machine
    (`LobbyHandler::run`, `handle_packet`, `send_start`,
    `JoinPacketRecvState`);
  * `binaries/flo/src/net/lobby.rs` — the control-plane worker loop and
    `LobbyStream::dispatch`;
  * `crates/controller/src/map/mod.rs` — `MapSha1` unpacking.

Machine integers are modelled as `Nat`/`Int` (no overflow is relevant to
any property below), byte buffers as `List Nat`, fallible code as
`Except`, and async sleeps as explicit millisecond arithmetic.
-/

namespace W3CFlo

/-! ## Lobby-phase data model (`crates/client/src/lan/game/lobby.rs`) -/

/-- `flo_types::node::NodeGameStatus`. -/
inductive NodeGameStatus
  | Created
  | Waiting
  | Loading
  | Running
  | Ended
  | Terminated
deriving DecidableEq, Repr

/-- `flo_w3gs::protocol::constants::ProtoBufMessageTypeId`, the inner tag of
a `ProtoBufPayload` packet, as matched in `handle_packet`. -/
inductive ProtoBufMessageTypeId
  | Unknown2
  | PlayerProfile
  | PlayerSkins
  | PlayerUnknown5
  | UnknownValue (id : Nat)
deriving DecidableEq, Repr

/-- The W3GS packets the lobby handler can receive, keyed by the type ids
matched in `LobbyHandler::handle_packet` (lobby.rs lines 196–360).  All
type ids outside the matched set collapse into `other`, mirroring the
fallback `_` arm. -/
inductive LobbyPacket
  | reqJoin
  | mapSize
  | chatToHost
  | pongToHost
  | protoBuf (t : ProtoBufMessageTypeId)
  | leaveReq
  | other (typeId : Nat)
deriving DecidableEq, Repr

/-- Messages the lobby handler writes to the client stream, abstracted to
their constructor arguments as they appear at each `Packet::simple` call
site in lobby.rs. -/
inductive W3GSMessage
  | slotInfoJoin (player_id : Nat) (external_addr : Nat)
  | slotInfo
  | playerInfo (id : Nat) (name : String)
  | playerSkins (player_id : Nat)
  | playerProfile (id : Nat) (name : String)
  | mapCheck (file_size : Nat) (crc32 : Nat) (settings : List Nat)
  | chatFromHost (from_id : Nat) (to_ids : List Nat) (message : String)
  | pingFromHost
  | countDownStart
  | countDownEnd
  | protoBufEcho (t : ProtoBufMessageTypeId)
deriving DecidableEq, Repr

/-- One entry of `LanSlotInfo::player_infos`. -/
structure PlayerInfoEntry where
  slot_player_id : Nat
  name : String
deriving DecidableEq, Repr

/-- `crate::lan::game::slot::LanSlotInfo`, restricted to the fields the
lobby handler reads. -/
structure LanSlotInfo where
  player_infos : List PlayerInfoEntry
  my_slot_player_id : Nat
  stream_ob_slot : Option Nat
deriving DecidableEq, Repr

/-- `flo_w3map::MapChecksum`, restricted to the fields read by the
`MapCheck` reply. -/
structure MapChecksum where
  file_size : Nat
  crc32 : Nat
deriving DecidableEq, Repr

/-- The local socket address of the client stream
(`self.stream.local_addr()`): either IPv4 (abstracted to a `Nat`) or
IPv6. -/
inductive SockAddrModel
  | v4 (addr : Nat)
  | v6 (addr : Nat)
deriving DecidableEq, Repr

/-- The read-only data `LobbyHandler` consults while handling packets:
`LanGameInfo` (slot info, map checksum, game settings blob) together with
the client stream local address. -/
structure LobbyCtx where
  slot_info : LanSlotInfo
  map_checksum : MapChecksum
  game_settings : List Nat
  local_addr : SockAddrModel
deriving DecidableEq, Repr

/-- Errors the lobby handler can return from `handle_packet` / `run`. -/
inductive LobbyError
  | ipv6NotSupported
  | unexpectedPacket (pkt : LobbyPacket)
  | streamClosed
deriving DecidableEq, Repr

/-- Modelled from the spec: `crate::lan::game::slot::index_to_player_id`
is not under `src/`; per the spec (§4.C) `slot_player_id = index + 1` for
an occupied slot, and the observer id is derived from its slot index the
same way. -/
def index_to_player_id (index : Nat) : Nat := index + 1

/-- `JoinPacketRecvState` (lobby.rs lines 365–372). -/
structure JoinPacketRecvState where
  total_players : Nat
  num_profile : Nat
  num_skins : Nat
  num_unk5 : Nat
  status : Option NodeGameStatus
deriving DecidableEq, Repr

namespace JoinPacketRecvState

/-- `JoinPacketRecvState::new` (lobby.rs lines 375–383). -/
def new (initial_game_state : Option NodeGameStatus) (total_players : Nat) :
    JoinPacketRecvState :=
  { total_players := total_players
    num_profile := 0
    num_skins := 0
    num_unk5 := 0
    status := initial_game_state }

/-- `JoinPacketRecvState::is_ready` (lobby.rs lines 385–387). -/
def is_ready (s : JoinPacketRecvState) : Bool :=
  s.num_profile == s.total_players && s.num_skins == 1 && s.num_unk5 == 1

/-- `JoinPacketRecvState::should_start` (lobby.rs lines 389–396). -/
def should_start (s : JoinPacketRecvState) : Bool :=
  s.is_ready &&
    match s.status with
    | some NodeGameStatus.Loading => true
    | some NodeGameStatus.Running => true
    | _ => false

end JoinPacketRecvState

/-- The initial `JoinPacketRecvState` built at the top of
`LobbyHandler::run` (lobby.rs lines 69–77): `total_players` is the length
of `player_infos` plus one if a stream observer slot is present. -/
def initialJoinState (ctx : LobbyCtx) (initial_game_state : Option NodeGameStatus) :
    JoinPacketRecvState :=
  JoinPacketRecvState.new initial_game_state
    (ctx.slot_info.player_infos.length +
      if ctx.slot_info.stream_ob_slot.isSome then 1 else 0)

/-- The loop body of the `for info in &slot_info.player_infos` loop in the
`ReqJoin` arm (lobby.rs lines 225–256): three packet vectors are grown in
order; `PlayerInfo` and `PlayerSkinsMessage` only for non-local players,
`PlayerProfileMessage` for every player. -/
def buildPlayerPackets (my : Nat) (infos : List PlayerInfoEntry) :
    List W3GSMessage × List W3GSMessage × List W3GSMessage :=
  infos.foldl
    (fun acc info =>
      let ip := acc.1
      let sp := acc.2.1
      let pp := acc.2.2
      let ips :=
        if info.slot_player_id ≠ my then
          (ip ++ [W3GSMessage.playerInfo info.slot_player_id info.name],
           sp ++ [W3GSMessage.playerSkins info.slot_player_id])
        else (ip, sp)
      (ips.1, ips.2,
        pp ++ [W3GSMessage.playerProfile info.slot_player_id info.name]))
    ([], [], [])

/-- The `ReqJoin` arm of `handle_packet` (lobby.rs lines 197–292): build
the consolidated reply batch handed to `stream.send_all`.  An IPv6 local
address aborts with `Ipv6NotSupported` before anything is sent. -/
def reqJoinReplies (ctx : LobbyCtx) : Except LobbyError (List W3GSMessage) :=
  match ctx.local_addr with
  | SockAddrModel.v6 _ => Except.error LobbyError.ipv6NotSupported
  | SockAddrModel.v4 a =>
    let si := ctx.slot_info
    let head := [W3GSMessage.slotInfoJoin si.my_slot_player_id a,
                 W3GSMessage.slotInfo]
    let built := buildPlayerPackets si.my_slot_player_id si.player_infos
    let withOb :=
      match si.stream_ob_slot with
      | some ob =>
        let obId := index_to_player_id ob
        (built.1 ++ [W3GSMessage.playerInfo obId "FLO"],
         built.2.1 ++ [W3GSMessage.playerSkins obId],
         built.2.2 ++ [W3GSMessage.playerProfile obId "FLO"])
      | none => built
    Except.ok (head ++ withOb.1 ++ withOb.2.1 ++ withOb.2.2 ++
      [W3GSMessage.mapCheck ctx.map_checksum.file_size ctx.map_checksum.crc32
        ctx.game_settings])

/-- `LobbyHandler::handle_packet` (lobby.rs lines 183–362), as a function
from the join state and the received packet to the updated state and the
batch of messages written to the client stream. -/
def handlePacket (ctx : LobbyCtx) (state : JoinPacketRecvState)
    (pkt : LobbyPacket) :
    Except LobbyError (JoinPacketRecvState × List W3GSMessage) :=
  match pkt with
  | LobbyPacket.reqJoin =>
    match reqJoinReplies ctx with
    | Except.ok replies => Except.ok (state, replies)
    | Except.error e => Except.error e
  | LobbyPacket.mapSize => Except.ok (state, [])
  | LobbyPacket.chatToHost =>
    Except.ok (state,
      [W3GSMessage.chatFromHost ctx.slot_info.my_slot_player_id
        [ctx.slot_info.my_slot_player_id]
        "Setting changes and chat are disabled."])
  | LobbyPacket.pongToHost => Except.ok (state, [])
  | LobbyPacket.protoBuf t =>
    match t with
    | ProtoBufMessageTypeId.Unknown2 => Except.ok (state, [])
    | ProtoBufMessageTypeId.PlayerProfile =>
      Except.ok ({ state with num_profile := state.num_profile + 1 },
        [W3GSMessage.protoBufEcho ProtoBufMessageTypeId.PlayerProfile])
    | ProtoBufMessageTypeId.PlayerSkins =>
      Except.ok ({ state with num_skins := state.num_skins + 1 },
        [W3GSMessage.protoBufEcho ProtoBufMessageTypeId.PlayerSkins])
    | ProtoBufMessageTypeId.PlayerUnknown5 =>
      Except.ok ({ state with num_unk5 := state.num_unk5 + 1 },
        [W3GSMessage.protoBufEcho ProtoBufMessageTypeId.PlayerUnknown5])
    | ProtoBufMessageTypeId.UnknownValue _ => Except.ok (state, [])
  | LobbyPacket.leaveReq => Except.ok (state, [])
  | LobbyPacket.other n =>
    Except.error (LobbyError.unexpectedPacket (LobbyPacket.other n))

/-- Result of processing one received client packet inside the `run` loop. -/
inductive RunStepResult
  | cont (s : JoinPacketRecvState) (sent : List W3GSMessage)
  | err (e : LobbyError)
deriving DecidableEq, Repr

/-- The client-frame arm of the `select!` in `LobbyHandler::run`
(lobby.rs lines 87–117): a `LeaveReq` is warned about and skipped before
`handle_packet` is ever called; every other packet goes through
`handle_packet`, whose error aborts `run`. -/
def runStep (ctx : LobbyCtx) (s : JoinPacketRecvState) (pkt : LobbyPacket) :
    RunStepResult :=
  if pkt = LobbyPacket.leaveReq then RunStepResult.cont s []
  else
    match handlePacket ctx s pkt with
    | Except.ok (s2, sent) => RunStepResult.cont s2 sent
    | Except.error e => RunStepResult.err e

/-- The join states passed through by the `run` loop while consuming a
sequence of client packets (the node-status `select!` arm does not touch
the counters and is projected away; a changed status can only make the
loop return earlier).  Processing stops at a `handle_packet` error or when
`should_start` fires, exactly as `run` returns there. -/
def lobbyRunStates (ctx : LobbyCtx) :
    JoinPacketRecvState → List LobbyPacket → List JoinPacketRecvState
  | s, [] => [s]
  | s, p :: ps =>
    match runStep ctx s p with
    | RunStepResult.err _ => [s]
    | RunStepResult.cont s2 _ =>
      if s2.should_start then [s, s2]
      else s :: lobbyRunStates ctx s2 ps

/-- Number of `ProtoBufPayload` packets with inner tag `t` in a packet
list. -/
def countProto (t : ProtoBufMessageTypeId) (pkts : List LobbyPacket) : Nat :=
  pkts.count (LobbyPacket.protoBuf t)

/-! ## `send_start` (lobby.rs lines 146–181) -/

/-- The mutable state `send_start` touches: the `starting` flag plus the
cumulative list of messages written to the client stream. -/
structure LobbySendState where
  starting : Bool
  sent : List W3GSMessage
deriving DecidableEq, Repr

/-- `LobbyHandler::send_start` (lobby.rs lines 146–181), projected to its
state effect: an early return when `starting` is already set, otherwise
set the flag and send `SlotInfo`, `CountDownStart`, and (after the waits)
`CountDownEnd`. -/
def send_start (s : LobbySendState) : LobbySendState :=
  if s.starting then s
  else
    { starting := true
      sent := s.sent ++ [W3GSMessage.slotInfo, W3GSMessage.countDownStart,
        W3GSMessage.countDownEnd] }

/-- The wall-clock milliseconds elapsed between sending `CountDownStart`
and sending `CountDownEnd` in `send_start` (lobby.rs lines 159–179):
an unconditional 3-second sleep; then, when a countdown notifier is
configured, a `select!` between the notifier and a 6-second sleep,
otherwise a further 3-second sleep.  `notifier = none` means no notifier
is configured; `notifier = some lat` means a notifier is configured and
fires `lat` milliseconds after the notifier wait begins (a notifier that
never fires is any `lat ≥ 6000`, where the 6-second sleep wins). -/
def countdown_elapsed_millis : Option Nat → Nat
  | none => 3000 + 3000
  | some lat => 3000 + min lat 6000

/-! ## Control-plane stream (`binaries/flo/src/net/lobby.rs`) -/

/-- `DisconnectReason` (net/lobby.rs lines 235–241). -/
inductive DisconnectReason
  | Unknown
  | Multi
  | Maintenance
deriving DecidableEq, Repr

/-- `PlayerStatus` (net/lobby.rs lines 258–263). -/
inductive PlayerStatus
  | Idle
  | InGame
deriving DecidableEq, Repr

/-- The control-plane frame type ids matched in the worker loop and in
`LobbyStream::dispatch`; ids outside the matched set collapse into
`Other`. -/
inductive CPTypeId
  | Ping
  | Pong
  | LobbyDisconnect
  | GameInfo
  | GamePlayerEnter
  | GamePlayerLeave
  | GameSlotUpdate
  | PlayerSessionUpdate
  | ListNodes
  | GameSelectNode
  | GamePlayerPingMapUpdate
  | GamePlayerPingMapSnapshot
  | Other (n : Nat)
deriving DecidableEq, Repr

/-- A node reference inside `PacketGameInfo` (`g.node`, whose `id` field
is itself optional protobuf data). -/
structure NodeRefMsg where
  id : Option Int
deriving DecidableEq, Repr

/-- The `game` message of `PacketGameInfo`, restricted to the field
dispatch reads before forwarding the whole message. -/
structure GameInfoMsg where
  node : Option NodeRefMsg
deriving DecidableEq, Repr

/-- One entry of `PacketListNodes::nodes`. -/
structure NodeMsg where
  id : Int
  name : String
  location : String
  country_id : Int
deriving DecidableEq, Repr

/-- A `message::Node` with the ping annotation added by the `ListNodes`
dispatch arm. -/
structure AnnotatedNode where
  id : Int
  name : String
  location : String
  country_id : Int
  ping : Option Nat
deriving DecidableEq, Repr

/-- The decoded payload of a control-plane frame, one variant per typed
packet the dispatch decodes; passthrough packets keep their raw bytes. -/
inductive CPPayload
  | lobbyDisconnect (reason : Int)
  | gameInfo (game : Option GameInfoMsg)
  | passthrough (raw : List Nat)
  | sessionUpdate (status : PlayerStatus) (game_id : Option Int)
  | listNodes (nodes : List NodeMsg)
  | selectNode (node_id : Option Int)
  | raw (bytes : List Nat)
deriving DecidableEq, Repr

/-- `flo_net::packet::Frame`: a type id plus payload. -/
structure CPFrame where
  type_id : CPTypeId
  payload : CPPayload
deriving DecidableEq, Repr

/-- Modelled from the spec: `NodeRegistry` (`crate::net::node`) is not
under `src/`.  Per the spec (§3) it is a node mapping with ping data plus
a single `selected_node_id`. -/
structure NodeRegistry where
  nodes : List NodeMsg
  pings : List (Int × Nat)
  selected_node_id : Option Int
deriving DecidableEq, Repr

/-- Modelled from the spec: `NodeRegistry::set_selected_node` stores the
given node id (clearing it when given `None`). -/
def NodeRegistry.set_selected_node (r : NodeRegistry) (v : Option Int) :
    NodeRegistry :=
  { r with selected_node_id := v }

/-- Modelled from the spec: `NodeRegistry::update_nodes` replaces the
node list. -/
def NodeRegistry.update_nodes (r : NodeRegistry) (ns : List NodeMsg) :
    NodeRegistry :=
  { r with nodes := ns }

/-- Modelled from the spec: `NodeRegistry::get_current_ping` returns the
registry ping currently recorded for a node id, if any. -/
def NodeRegistry.get_current_ping (r : NodeRegistry) (id : Int) : Option Nat :=
  (r.pings.find? (fun p => p.1 == id)).map (fun p => p.2)

/-- The state the control-plane worker mutates: the node registry and the
shared `current_game_id` cell. -/
structure CPState where
  nodes : NodeRegistry
  current_game_id : Option Int
deriving DecidableEq, Repr

/-- `OutgoingMessage` values the worker pushes to the user-facing (ws)
sink, restricted to the variants produced in net/lobby.rs. -/
inductive OutgoingMessage
  | disconnect (reason : DisconnectReason) (message : String)
  | currentGameInfo (game : GameInfoMsg)
  | gamePlayerEnter (raw : List Nat)
  | gamePlayerLeave (raw : List Nat)
  | gameSlotUpdate (raw : List Nat)
  | playerSessionUpdate (status : PlayerStatus) (game_id : Option Int)
  | listNodes (nodes : List AnnotatedNode)
  | gameSelectNode (node_id : Option Int)
  | gamePlayerPingMapUpdate (raw : List Nat)
  | gamePlayerPingMapSnapshot (raw : List Nat)
deriving DecidableEq, Repr

/-- `S2ProtoEnum::unpack_i32` for `LobbyDisconnectReason`: only the three
declared discriminants unpack. -/
def unpackDisconnectReason (v : Int) : Except String DisconnectReason :=
  if v = 0 then Except.ok DisconnectReason.Unknown
  else if v = 1 then Except.ok DisconnectReason.Multi
  else if v = 2 then Except.ok DisconnectReason.Maintenance
  else Except.error "invalid LobbyDisconnectReason"

/-- `LobbyStream::dispatch` (net/lobby.rs lines 157–224), up to but not
including the final `send_message`: returns the state after the side
effects together with either the message to emit or the dispatch error
(state changes made before the error are kept, as in the source where
they act on shared references).  A frame whose payload does not decode at
its type id, or whose type id is not matched by `match_packet!`, is a
dispatch error. -/
def dispatchPure (st : CPState) (f : CPFrame) :
    CPState × Except String OutgoingMessage :=
  match f.type_id, f.payload with
  | CPTypeId.LobbyDisconnect, CPPayload.lobbyDisconnect r =>
    (st,
      match unpackDisconnectReason r with
      | Except.ok reason =>
        Except.ok (OutgoingMessage.disconnect reason
          "Server closed the connection")
      | Except.error e => Except.error e)
  | CPTypeId.GameInfo, CPPayload.gameInfo g =>
    let st2 := { st with
      nodes := st.nodes.set_selected_node
        (g.bind (fun gi => gi.node.bind (fun n => n.id))) }
    (st2,
      match g with
      | some gi => Except.ok (OutgoingMessage.currentGameInfo gi)
      | none => Except.error "extract: field game is missing")
  | CPTypeId.GamePlayerEnter, CPPayload.passthrough raw =>
    (st, Except.ok (OutgoingMessage.gamePlayerEnter raw))
  | CPTypeId.GamePlayerLeave, CPPayload.passthrough raw =>
    (st, Except.ok (OutgoingMessage.gamePlayerLeave raw))
  | CPTypeId.GameSlotUpdate, CPPayload.passthrough raw =>
    (st, Except.ok (OutgoingMessage.gameSlotUpdate raw))
  | CPTypeId.PlayerSessionUpdate, CPPayload.sessionUpdate status game_id =>
    let st2 :=
      if game_id.isNone then
        { st with nodes := st.nodes.set_selected_node none }
      else st
    let st3 := { st2 with current_game_id := game_id }
    (st3, Except.ok (OutgoingMessage.playerSessionUpdate status game_id))
  | CPTypeId.ListNodes, CPPayload.listNodes ns =>
    let st2 := { st with nodes := st.nodes.update_nodes ns }
    (st2, Except.ok (OutgoingMessage.listNodes
      (ns.map (fun n =>
        { id := n.id
          name := n.name
          location := n.location
          country_id := n.country_id
          ping := st2.nodes.get_current_ping n.id }))))
  | CPTypeId.GameSelectNode, CPPayload.selectNode node_id =>
    ({ st with nodes := st.nodes.set_selected_node node_id },
      Except.ok (OutgoingMessage.gameSelectNode node_id))
  | CPTypeId.GamePlayerPingMapUpdate, CPPayload.passthrough raw =>
    (st, Except.ok (OutgoingMessage.gamePlayerPingMapUpdate raw))
  | CPTypeId.GamePlayerPingMapSnapshot, CPPayload.passthrough raw =>
    (st, Except.ok (OutgoingMessage.gamePlayerPingMapSnapshot raw))
  | _, _ => (st, Except.error "unexpected packet type")

deriving instance DecidableEq for Except

/-- One event of the worker loop `select!`: either the outbound mpsc
yields (`none` = the sender side was dropped), or the inbound
`recv_frame` resolves. -/
inductive CPEvent
  | outgoing (f : Option CPFrame)
  | incoming (r : Except String CPFrame)
deriving DecidableEq, Repr

/-- Environment of one loop iteration: whether `stream.send_frame`
succeeds, and whether the ws sink rejects sends (with which error
text). -/
structure CPConfig where
  sendOk : Bool
  sinkErr : Option String
deriving DecidableEq, Repr

/-- The observable effects of one worker-loop iteration: frames whose
send on the control stream was attempted, frames handed to `dispatch`,
messages whose send on the user-facing sink was attempted (in order,
best-effort disconnects included), and whether the loop `break`s. -/
structure StepEffects where
  sentFrames : List CPFrame
  dispatchedFrames : List CPFrame
  sinkAttempts : List OutgoingMessage
  exited : Bool
deriving DecidableEq, Repr

/-- One iteration of the post-accept worker loop in `LobbyStream::connect`
(net/lobby.rs lines 69–135). -/
def cpLoopStep (cfg : CPConfig) (st : CPState) (ev : CPEvent) :
    CPState × StepEffects :=
  match ev with
  | CPEvent.outgoing none =>
    (st, { sentFrames := [], dispatchedFrames := [], sinkAttempts := []
           exited := true })
  | CPEvent.outgoing (some f) =>
    (st, { sentFrames := [f], dispatchedFrames := [], sinkAttempts := []
           exited := !cfg.sendOk })
  | CPEvent.incoming (Except.error e) =>
    (st, { sentFrames := [], dispatchedFrames := []
           sinkAttempts := [OutgoingMessage.disconnect DisconnectReason.Unknown
             ("recv: " ++ e)]
           exited := true })
  | CPEvent.incoming (Except.ok f) =>
    if f.type_id = CPTypeId.Ping then
      (st, { sentFrames := [{ f with type_id := CPTypeId.Pong }]
             dispatchedFrames := [], sinkAttempts := []
             exited := !cfg.sendOk })
    else
      match dispatchPure st f with
      | (st2, Except.ok msg) =>
        match cfg.sinkErr with
        | none =>
          (st2, { sentFrames := [], dispatchedFrames := [f]
                  sinkAttempts := [msg], exited := false })
        | some e =>
          (st2, { sentFrames := [], dispatchedFrames := [f]
                  sinkAttempts := [msg,
                    OutgoingMessage.disconnect DisconnectReason.Unknown
                      ("dispatch: " ++ e)]
                  exited := true })
      | (st2, Except.error e) =>
        (st2, { sentFrames := [], dispatchedFrames := [f]
                sinkAttempts := [OutgoingMessage.disconnect
                  DisconnectReason.Unknown ("dispatch: " ++ e)]
                exited := true })

/-! ## `MapSha1` unpacking (`crates/controller/src/map/mod.rs` lines 34–44) -/

/-- Rust `<[u8]>::clone_from_slice`: copies when the two slices have equal
length and panics otherwise (the panic is modelled as an error). -/
def clone_from_slice (dst src : List Nat) : Except String (List Nat) :=
  if src.length = dst.length then Except.ok src
  else Except.error "source slice length does not match destination slice length"

/-- `impl S2ProtoUnpack<Vec<u8>> for MapSha1` (map/mod.rs lines 34–44):
start from `[0u8; 20]`; when the input holds at least 20 bytes copy its
first 20 into the whole array, otherwise copy the whole input into the
low `value.len()` bytes. -/
def MapSha1.unpack (value : List Nat) : Except String (List Nat) :=
  let bytes := List.replicate 20 0
  if 20 ≤ value.length then
    clone_from_slice bytes (value.take 20)
  else
    match clone_from_slice (bytes.take value.length) value with
    | Except.ok written => Except.ok (written ++ bytes.drop value.length)
    | Except.error e => Except.error e

/-! ## Concrete instances used by witnesses and counterexamples -/

/-- A two-player lobby context without an observer slot. -/
def ctx0 : LobbyCtx :=
  { slot_info := { player_infos := [{ slot_player_id := 1, name := "Alice" },
                                    { slot_player_id := 2, name := "Bob" }]
                   my_slot_player_id := 1
                   stream_ob_slot := none }
    map_checksum := { file_size := 64, crc32 := 7 }
    game_settings := [1]
    local_addr := SockAddrModel.v4 9 }

/-- A two-player lobby context with a stream observer at slot index 2. -/
def ctxObPlayer : LobbyCtx :=
  { slot_info := { player_infos := [{ slot_player_id := 1, name := "Alice" },
                                    { slot_player_id := 2, name := "Bob" }]
                   my_slot_player_id := 1
                   stream_ob_slot := some 2 }
    map_checksum := { file_size := 64, crc32 := 7 }
    game_settings := [1]
    local_addr := SockAddrModel.v4 9 }

/-- An empty control-plane state. -/
def st0 : CPState :=
  { nodes := { nodes := [], pings := [], selected_node_id := none }
    current_game_id := none }

/-- A control-plane state with node 7 selected and a current game. -/
def stSel7 : CPState :=
  { nodes := { nodes := [], pings := [], selected_node_id := some 7 }
    current_game_id := some 3 }

/-- A concrete `Ping` frame. -/
def pingFrame : CPFrame := { type_id := CPTypeId.Ping, payload := CPPayload.raw [1, 2] }

/-- A concrete non-`Ping` frame. -/
def enterFrame : CPFrame :=
  { type_id := CPTypeId.GamePlayerEnter, payload := CPPayload.passthrough [3] }

/-- The `ReqJoin` reply sequence as claim C2 words it, for comparison
with `reqJoinReplies`: the three observer messages appear together as one
group after all the profile messages, right before `MapCheck`. -/
def reqJoinRepliesClaimed (ctx : LobbyCtx) : Except LobbyError (List W3GSMessage) :=
  match ctx.local_addr with
  | SockAddrModel.v6 _ => Except.error LobbyError.ipv6NotSupported
  | SockAddrModel.v4 a =>
    let si := ctx.slot_info
    let nonLocal := si.player_infos.filter
      (fun i => i.slot_player_id ≠ si.my_slot_player_id)
    Except.ok
      ([W3GSMessage.slotInfoJoin si.my_slot_player_id a, W3GSMessage.slotInfo] ++
        nonLocal.map (fun i => W3GSMessage.playerInfo i.slot_player_id i.name) ++
        nonLocal.map (fun i => W3GSMessage.playerSkins i.slot_player_id) ++
        si.player_infos.map
          (fun i => W3GSMessage.playerProfile i.slot_player_id i.name) ++
        (match si.stream_ob_slot with
          | some ob =>
            [W3GSMessage.playerInfo (index_to_player_id ob) "FLO",
             W3GSMessage.playerSkins (index_to_player_id ob),
             W3GSMessage.playerProfile (index_to_player_id ob) "FLO"]
          | none => []) ++
        [W3GSMessage.mapCheck ctx.map_checksum.file_size ctx.map_checksum.crc32
          ctx.game_settings])

/-! ## Theorems -/

theorem send_start_fixed_of_starting (s : LobbySendState) (h : s.starting = true) :
    send_start s = s := by
  simp [send_start, h]

/-- C5: `send_start` is idempotent — for any `n ≥ 1` sequential calls
starting from a fresh handler, the result equals the result of one call,
`SlotInfo`, `CountDownStart` and `CountDownEnd` are each sent exactly
once, and every call on a handler with `starting = true` is a no-op. -/
theorem send_start_idempotent (n : Nat) (h : 1 ≤ n) :
    send_start^[n] { starting := false, sent := [] } =
      { starting := true
        sent := [W3GSMessage.slotInfo, W3GSMessage.countDownStart,
          W3GSMessage.countDownEnd] } ∧
    (send_start^[n] { starting := false, sent := [] }).sent.count
      W3GSMessage.slotInfo = 1 ∧
    (send_start^[n] { starting := false, sent := [] }).sent.count
      W3GSMessage.countDownStart = 1 ∧
    (send_start^[n] { starting := false, sent := [] }).sent.count
      W3GSMessage.countDownEnd = 1 ∧
    (∀ s : LobbySendState, s.starting = true → send_start s = s) := by
  obtain ⟨k, rfl⟩ : ∃ k, n = k + 1 := ⟨n - 1, (Nat.succ_pred_eq_of_pos h).symm⟩
  have h1 : send_start { starting := false, sent := [] } =
      { starting := true
        sent := [W3GSMessage.slotInfo, W3GSMessage.countDownStart,
          W3GSMessage.countDownEnd] } := rfl
  have hiter : send_start^[k + 1] { starting := false, sent := [] } =
      { starting := true
        sent := [W3GSMessage.slotInfo, W3GSMessage.countDownStart,
          W3GSMessage.countDownEnd] } := by
    rw [Function.iterate_succ_apply, h1]
    exact Function.iterate_fixed (send_start_fixed_of_starting _ rfl) k
  refine ⟨hiter, ?_, ?_, ?_, fun s hs => send_start_fixed_of_starting s hs⟩ <;>
    rw [hiter] <;> decide

/-- C5 witness: three sequential calls send the start batch exactly once. -/
theorem send_start_idempotent_witness :
    send_start^[3] { starting := false, sent := [] } =
      { starting := true
        sent := [W3GSMessage.slotInfo, W3GSMessage.countDownStart,
          W3GSMessage.countDownEnd] } ∧
    (send_start^[3] { starting := false, sent := [] }).sent.count
      W3GSMessage.countDownStart = 1 :=
  ⟨(send_start_idempotent 3 (by decide)).1,
   (send_start_idempotent 3 (by decide)).2.2.1⟩

/-- C4: the elapsed time between `CountDownStart` and `CountDownEnd` is
at least 3s always, exactly 3+3s with no notifier configured, at most
3+6s when a configured notifier never fires, and 3s plus the notifier
latency when it fires within the 6-second ceiling. -/
theorem countdown_timing (notifier : Option Nat) :
    3000 ≤ countdown_elapsed_millis notifier ∧
    countdown_elapsed_millis none = 3000 + 3000 ∧
    (∀ lat, 6000 ≤ lat → countdown_elapsed_millis (some lat) ≤ 3000 + 6000) ∧
    (∀ lat, lat ≤ 6000 → countdown_elapsed_millis (some lat) = 3000 + lat) := by
  refine ⟨?_, rfl, ?_, ?_⟩
  · cases notifier <;> simp [countdown_elapsed_millis]
  · intro lat h
    simp only [countdown_elapsed_millis]
    omega
  · intro lat h
    simp only [countdown_elapsed_millis]
    omega

/-- C4 witness: a notifier that never fires gives at most 9s, one firing
after 2s gives exactly 5s. -/
theorem countdown_timing_witness :
    countdown_elapsed_millis (some 7000) ≤ 3000 + 6000 ∧
    countdown_elapsed_millis (some 2000) = 3000 + 2000 :=
  ⟨(countdown_timing (some 7000)).2.2.1 7000 (by decide),
   (countdown_timing (some 2000)).2.2.2 2000 (by decide)⟩

/-- C8: during the lobby phase a `LeaveReq` from the client is skipped by
the `run` loop (same state, nothing sent, no error), while a packet with
any type id outside the accepted lobby set is fatal: `run` returns the
`UnexpectedPacket` error carrying that packet. -/
theorem lobby_leavereq_ignored_unknown_fatal (ctx : LobbyCtx)
    (s : JoinPacketRecvState) (n : Nat) :
    runStep ctx s LobbyPacket.leaveReq = RunStepResult.cont s [] ∧
    runStep ctx s (LobbyPacket.other n) =
      RunStepResult.err (LobbyError.unexpectedPacket (LobbyPacket.other n)) := by
  constructor
  · simp [runStep]
  · simp [runStep, handlePacket]

/-- C9: `total_players` is `player_infos.len()` plus one exactly when a
stream observer slot is present, and in that case readiness requires
`num_profile` to reach `player_infos.len() + 1`. -/
theorem total_players_counts_observer (ctx : LobbyCtx)
    (g : Option NodeGameStatus) :
    ((initialJoinState ctx g).total_players =
        ctx.slot_info.player_infos.length + 1 ↔
      ctx.slot_info.stream_ob_slot.isSome = true) ∧
    (ctx.slot_info.stream_ob_slot.isSome = true →
      ∀ s : JoinPacketRecvState,
        s.total_players = (initialJoinState ctx g).total_players →
        s.is_ready = true →
        s.num_profile = ctx.slot_info.player_infos.length + 1) := by
  constructor
  · cases hob : ctx.slot_info.stream_ob_slot <;>
      simp [initialJoinState, JoinPacketRecvState.new, hob]
  · intro hob s htot hready
    simp only [JoinPacketRecvState.is_ready, Bool.and_eq_true, beq_iff_eq]
      at hready
    rw [hready.1.1, htot]
    simp [initialJoinState, JoinPacketRecvState.new, hob]

/-- C9 witness: with one entry in `player_infos` and an observer present,
a ready state carries two profile echoes. -/
theorem total_players_counts_observer_witness :
    ((initialJoinState ctxObPlayer none).total_players =
        ctxObPlayer.slot_info.player_infos.length + 1 ↔
      ctxObPlayer.slot_info.stream_ob_slot.isSome = true) ∧
    ({ total_players := 3, num_profile := 3, num_skins := 1, num_unk5 := 1
       status := none : JoinPacketRecvState }).num_profile =
      ctxObPlayer.slot_info.player_infos.length + 1 :=
  ⟨(total_players_counts_observer ctxObPlayer none).1,
   (total_players_counts_observer ctxObPlayer none).2 (by decide)
     { total_players := 3, num_profile := 3, num_skins := 1, num_unk5 := 1
       status := none } (by decide) (by decide)⟩

/-- C10: `MapSha1` unpacking is total — every byte vector yields a
20-byte digest with no failure: the first 20 bytes when the input holds
at least 20, otherwise the whole input padded with zeros. -/
theorem mapsha1_unpack_total (value : List Nat) :
    (∃ out, MapSha1.unpack value = Except.ok out ∧ out.length = 20) ∧
    (20 ≤ value.length → MapSha1.unpack value = Except.ok (value.take 20)) ∧
    (value.length < 20 →
      MapSha1.unpack value =
        Except.ok (value ++ List.replicate (20 - value.length) 0)) := by
  by_cases h : 20 ≤ value.length
  · have h20 : (value.take 20).length = 20 := by
      rw [List.length_take]
      omega
    have hok : MapSha1.unpack value = Except.ok (value.take 20) := by
      simp [MapSha1.unpack, clone_from_slice, h, h20]
    exact ⟨⟨value.take 20, hok, h20⟩, fun _ => hok, fun hlt => absurd hlt (by omega)⟩
  · have hlt : value.length < 20 := by omega
    have hdst : ((List.replicate 20 (0 : Nat)).take value.length).length =
        value.length := by
      rw [List.length_take, List.length_replicate]
      omega
    have hdrop : (List.replicate 20 (0 : Nat)).drop value.length =
        List.replicate (20 - value.length) 0 := by
      rw [List.drop_replicate]
    have hok : MapSha1.unpack value =
        Except.ok (value ++ List.replicate (20 - value.length) 0) := by
      simp only [MapSha1.unpack, clone_from_slice, if_neg h, hdst,
        eq_self_iff_true, if_true, hdrop]
    refine ⟨⟨value ++ List.replicate (20 - value.length) 0, hok, ?_⟩,
      fun hge => absurd hge h, fun _ => hok⟩
    rw [List.length_append, List.length_replicate]
    omega

theorem runStep_counters (ctx : LobbyCtx) (s : JoinPacketRecvState)
    (p : LobbyPacket) (s2 : JoinPacketRecvState) (out : List W3GSMessage)
    (h : runStep ctx s p = RunStepResult.cont s2 out) :
    s2.total_players = s.total_players ∧
    s2.num_profile = s.num_profile +
      (if p = LobbyPacket.protoBuf ProtoBufMessageTypeId.PlayerProfile
        then 1 else 0) ∧
    s2.num_skins = s.num_skins +
      (if p = LobbyPacket.protoBuf ProtoBufMessageTypeId.PlayerSkins
        then 1 else 0) ∧
    s2.num_unk5 = s.num_unk5 +
      (if p = LobbyPacket.protoBuf ProtoBufMessageTypeId.PlayerUnknown5
        then 1 else 0) := by
  cases p with
  | reqJoin =>
    rcases hr : reqJoinReplies ctx with e | r
    · simp [runStep, handlePacket, hr] at h
    · simp [runStep, handlePacket, hr] at h
      simp [h.1.symm]
  | mapSize => simp [runStep, handlePacket] at h; simp [h.1.symm]
  | chatToHost => simp [runStep, handlePacket] at h; simp [h.1.symm]
  | pongToHost => simp [runStep, handlePacket] at h; simp [h.1.symm]
  | protoBuf t =>
    cases t <;> simp [runStep, handlePacket] at h <;> simp [← h.1]
  | leaveReq => simp [runStep] at h; simp [h.1.symm]
  | other n => simp [runStep, handlePacket] at h

theorem lobbyRunStates_counters (ctx : LobbyCtx) (pkts : List LobbyPacket) :
    ∀ s st : JoinPacketRecvState, st ∈ lobbyRunStates ctx s pkts →
      st.total_players = s.total_players ∧
      st.num_profile ≤ s.num_profile +
        countProto ProtoBufMessageTypeId.PlayerProfile pkts ∧
      st.num_skins ≤ s.num_skins +
        countProto ProtoBufMessageTypeId.PlayerSkins pkts ∧
      st.num_unk5 ≤ s.num_unk5 +
        countProto ProtoBufMessageTypeId.PlayerUnknown5 pkts := by
  induction pkts with
  | nil =>
    intro s st h
    simp [lobbyRunStates] at h
    subst h
    exact ⟨rfl, Nat.le_add_right _ _, Nat.le_add_right _ _, Nat.le_add_right _ _⟩
  | cons p ps ih =>
    intro s st h
    rw [lobbyRunStates] at h
    have hcount : ∀ t : ProtoBufMessageTypeId,
        countProto t (p :: ps) =
          (if p = LobbyPacket.protoBuf t then 1 else 0) + countProto t ps := by
      intro t
      simp [countProto, List.count_cons]
      by_cases hp : p = LobbyPacket.protoBuf t
      · simp [hp]
        omega
      · simp [hp]
    rcases hr : runStep ctx s p with ⟨s2, out⟩ | e
    · rw [hr] at h
      obtain ⟨ht, h1, h2, h3⟩ := runStep_counters ctx s p s2 out hr
      by_cases hss : s2.should_start = true
      · simp [hss] at h
        rcases h with h | h <;> subst h
        · exact ⟨rfl, Nat.le_add_right _ _, Nat.le_add_right _ _,
            Nat.le_add_right _ _⟩
        · refine ⟨ht, ?_, ?_, ?_⟩ <;> rw [hcount] <;> omega
      · simp [hss] at h
        rcases h with h | h
        · subst h
          exact ⟨rfl, Nat.le_add_right _ _, Nat.le_add_right _ _,
            Nat.le_add_right _ _⟩
        · obtain ⟨ht2, g1, g2, g3⟩ := ih s2 st h
          refine ⟨ht2.trans ht, ?_, ?_, ?_⟩ <;> rw [hcount] <;> omega
    · rw [hr] at h
      simp at h
      subst h
      exact ⟨rfl, Nat.le_add_right _ _, Nat.le_add_right _ _,
        Nat.le_add_right _ _⟩

/-- C1 (amended): the join-packet counters record exactly how many
packets of each kind the client has sent, so the invariants
`num_profile ≤ total_players`, `num_skins ≤ 1` and `num_unk5 ≤ 1` hold
at every point of the run loop provided the client sends at most
`total_players` `PlayerProfile` packets, at most one `PlayerSkins` packet
and at most one `PlayerUnknown5` packet; unbounded repeats violate them
(see the counterexample). -/
theorem join_counters_invariant (ctx : LobbyCtx) (g : Option NodeGameStatus)
    (total : Nat) (pkts : List LobbyPacket)
    (hp : countProto ProtoBufMessageTypeId.PlayerProfile pkts ≤ total)
    (hs : countProto ProtoBufMessageTypeId.PlayerSkins pkts ≤ 1)
    (hu : countProto ProtoBufMessageTypeId.PlayerUnknown5 pkts ≤ 1) :
    ∀ st ∈ lobbyRunStates ctx (JoinPacketRecvState.new g total) pkts,
      st.num_profile ≤ st.total_players ∧
      st.num_skins ≤ 1 ∧ st.num_unk5 ≤ 1 := by
  intro st hst
  obtain ⟨ht, h1, h2, h3⟩ := lobbyRunStates_counters ctx pkts _ st hst
  simp only [JoinPacketRecvState.new] at ht h1 h2 h3
  rw [ht]
  exact ⟨by omega, by omega, by omega⟩

/-- C1 witness: a client that sends a single `PlayerProfile` keeps the
invariants at every reachable state. -/
theorem join_counters_invariant_witness :
    ({ total_players := 2, num_profile := 1, num_skins := 0, num_unk5 := 0
       status := none : JoinPacketRecvState }).num_profile ≤
        ({ total_players := 2, num_profile := 1, num_skins := 0, num_unk5 := 0
           status := none : JoinPacketRecvState }).total_players ∧
    ({ total_players := 2, num_profile := 1, num_skins := 0, num_unk5 := 0
       status := none : JoinPacketRecvState }).num_skins ≤ 1 ∧
    ({ total_players := 2, num_profile := 1, num_skins := 0, num_unk5 := 0
       status := none : JoinPacketRecvState }).num_unk5 ≤ 1 :=
  join_counters_invariant ctx0 none 2
    [LobbyPacket.protoBuf ProtoBufMessageTypeId.PlayerProfile]
    (by decide) (by decide) (by decide)
    { total_players := 2, num_profile := 1, num_skins := 0, num_unk5 := 0
      status := none }
    (by decide)

/-- C1 counterexample: the claim as stated fails — a client that sends
`PlayerSkins` twice drives `num_skins` to 2 inside the run loop, because
`handle_packet` increments the counters without any bound. -/
theorem join_counters_counterexample :
    ¬ (∀ st ∈ lobbyRunStates ctx0 (JoinPacketRecvState.new none 2)
          [LobbyPacket.protoBuf ProtoBufMessageTypeId.PlayerSkins,
           LobbyPacket.protoBuf ProtoBufMessageTypeId.PlayerSkins],
        st.num_profile ≤ st.total_players ∧
        st.num_skins ≤ 1 ∧ st.num_unk5 ≤ 1) := by
  decide

theorem buildPlayerPackets_go (my : Nat) (infos : List PlayerInfoEntry) :
    ∀ ip sp pp : List W3GSMessage,
      List.foldl
        (fun acc info =>
          let ip2 := acc.1
          let sp2 := acc.2.1
          let pp2 := acc.2.2
          let ips :=
            if info.slot_player_id ≠ my then
              (ip2 ++ [W3GSMessage.playerInfo info.slot_player_id info.name],
               sp2 ++ [W3GSMessage.playerSkins info.slot_player_id])
            else (ip2, sp2)
          (ips.1, ips.2,
            pp2 ++ [W3GSMessage.playerProfile info.slot_player_id info.name]))
        (ip, sp, pp) infos =
      (ip ++ ((infos.filter (fun i => i.slot_player_id ≠ my)).map
          (fun i => W3GSMessage.playerInfo i.slot_player_id i.name)),
       sp ++ ((infos.filter (fun i => i.slot_player_id ≠ my)).map
          (fun i => W3GSMessage.playerSkins i.slot_player_id)),
       pp ++ (infos.map
          (fun i => W3GSMessage.playerProfile i.slot_player_id i.name))) := by
  induction infos with
  | nil => intro ip sp pp; simp
  | cons i rest ih =>
    intro ip sp pp
    rw [List.foldl_cons]
    by_cases hmy : i.slot_player_id ≠ my
    · simp only [if_pos hmy]
      rw [ih]
      simp [List.filter_cons, hmy]
    · simp only [if_neg hmy]
      rw [ih]
      simp [List.filter_cons, hmy]

theorem buildPlayerPackets_eq (my : Nat) (infos : List PlayerInfoEntry) :
    buildPlayerPackets my infos =
      ((infos.filter (fun i => i.slot_player_id ≠ my)).map
          (fun i => W3GSMessage.playerInfo i.slot_player_id i.name),
       (infos.filter (fun i => i.slot_player_id ≠ my)).map
          (fun i => W3GSMessage.playerSkins i.slot_player_id),
       infos.map (fun i => W3GSMessage.playerProfile i.slot_player_id i.name)) := by
  unfold buildPlayerPackets
  rw [buildPlayerPackets_go]
  simp

/-- C2 (amended): on `ReqJoin` the handler emits, as one batched write:
`SlotInfoJoin` (canonical slot info, local player id, the IPv4 local
address), a second `SlotInfo`, then the `PlayerInfo` group (one per
non-local player, with the observer appended to this group when
present), then the zeroed `PlayerSkinsMessage` group (likewise), then
the `PlayerProfileMessage` group (every player including the local one,
observer appended), then `MapCheck` with `file_size`, `crc32` and the
`game_settings` blob.  The observer messages are interleaved into their
groups, not emitted as one trailing group as the claim states. -/
theorem reqjoin_reply_order (ctx : LobbyCtx) (a : Nat)
    (h : ctx.local_addr = SockAddrModel.v4 a) :
    reqJoinReplies ctx = Except.ok
      ([W3GSMessage.slotInfoJoin ctx.slot_info.my_slot_player_id a,
        W3GSMessage.slotInfo] ++
       (((ctx.slot_info.player_infos.filter
            (fun i => i.slot_player_id ≠ ctx.slot_info.my_slot_player_id)).map
          (fun i => W3GSMessage.playerInfo i.slot_player_id i.name)) ++
        (match ctx.slot_info.stream_ob_slot with
          | some ob => [W3GSMessage.playerInfo (index_to_player_id ob) "FLO"]
          | none => [])) ++
       (((ctx.slot_info.player_infos.filter
            (fun i => i.slot_player_id ≠ ctx.slot_info.my_slot_player_id)).map
          (fun i => W3GSMessage.playerSkins i.slot_player_id)) ++
        (match ctx.slot_info.stream_ob_slot with
          | some ob => [W3GSMessage.playerSkins (index_to_player_id ob)]
          | none => [])) ++
       ((ctx.slot_info.player_infos.map
          (fun i => W3GSMessage.playerProfile i.slot_player_id i.name)) ++
        (match ctx.slot_info.stream_ob_slot with
          | some ob => [W3GSMessage.playerProfile (index_to_player_id ob) "FLO"]
          | none => [])) ++
       [W3GSMessage.mapCheck ctx.map_checksum.file_size ctx.map_checksum.crc32
         ctx.game_settings]) := by
  rcases hob : ctx.slot_info.stream_ob_slot with _ | ob <;>
    simp [reqJoinReplies, h, hob, buildPlayerPackets_eq, List.append_assoc]

/-- C2 witness: the concrete two-player lobby with an observer produces
exactly the interleaved batch. -/
theorem reqjoin_reply_order_witness :
    reqJoinReplies ctxObPlayer = Except.ok
      [W3GSMessage.slotInfoJoin 1 9, W3GSMessage.slotInfo,
       W3GSMessage.playerInfo 2 "Bob", W3GSMessage.playerInfo 3 "FLO",
       W3GSMessage.playerSkins 2, W3GSMessage.playerSkins 3,
       W3GSMessage.playerProfile 1 "Alice", W3GSMessage.playerProfile 2 "Bob",
       W3GSMessage.playerProfile 3 "FLO",
       W3GSMessage.mapCheck 64 7 [1]] := by
  rw [reqjoin_reply_order ctxObPlayer 9 rfl]
  rfl

/-- C2 counterexample: with one non-local player and an observer slot
present, the emitted sequence differs from the order the claim states
(the observer `PlayerInfo` follows the player `PlayerInfo`s immediately,
before any skins or profile message). -/
theorem reqjoin_reply_order_counterexample :
    reqJoinReplies ctxObPlayer ≠ reqJoinRepliesClaimed ctxObPlayer := by
  decide

/-- C6: a received `Ping` frame is answered by a frame with the same
payload and type id rewritten to `Pong` and is never handed to dispatch;
every non-`Ping` frame is handed to dispatch. -/
theorem ping_echoed_not_dispatched (cfg : CPConfig) (st : CPState)
    (f : CPFrame) :
    (f.type_id = CPTypeId.Ping →
      (cpLoopStep cfg st (CPEvent.incoming (Except.ok f))).2.sentFrames =
        [{ f with type_id := CPTypeId.Pong }] ∧
      (cpLoopStep cfg st (CPEvent.incoming (Except.ok f))).2.dispatchedFrames
        = []) ∧
    (f.type_id ≠ CPTypeId.Ping →
      (cpLoopStep cfg st (CPEvent.incoming (Except.ok f))).2.dispatchedFrames
        = [f]) := by
  constructor
  · intro h
    simp [cpLoopStep, h]
  · intro h
    rcases hd : dispatchPure st f with ⟨st2, r⟩
    cases r with
    | ok m =>
      cases hs : cfg.sinkErr <;> simp [cpLoopStep, h, hd, hs]
    | error e => simp [cpLoopStep, h, hd]

/-- C6 witness: a concrete `Ping` is echoed as `Pong` with its payload,
a concrete `GamePlayerEnter` frame is dispatched. -/
theorem ping_echoed_not_dispatched_witness :
    (cpLoopStep { sendOk := true, sinkErr := none } st0
        (CPEvent.incoming (Except.ok pingFrame))).2.sentFrames =
      [{ pingFrame with type_id := CPTypeId.Pong }] ∧
    (cpLoopStep { sendOk := true, sinkErr := none } st0
        (CPEvent.incoming (Except.ok enterFrame))).2.dispatchedFrames =
      [enterFrame] :=
  ⟨((ping_echoed_not_dispatched { sendOk := true, sinkErr := none } st0
      pingFrame).1 rfl).1,
   (ping_echoed_not_dispatched { sendOk := true, sinkErr := none } st0
      enterFrame).2 (by decide)⟩

/-- C7: dispatching `PacketPlayerSessionUpdate` with `game_id = None`
clears the selected node, overwrites the shared `current_game_id` with
`None` and emits exactly one `PlayerSessionUpdate` to the user sink;
with `game_id = Some g` the selected node is untouched and
`current_game_id` becomes `Some g`. -/
theorem session_update_dispatch (cfg : CPConfig) (st : CPState)
    (status : PlayerStatus) (gid : Option Int) (h : cfg.sinkErr = none) :
    (gid = none →
      (cpLoopStep cfg st (CPEvent.incoming (Except.ok
          { type_id := CPTypeId.PlayerSessionUpdate
            payload := CPPayload.sessionUpdate status gid }))).1.nodes.selected_node_id
        = none ∧
      (cpLoopStep cfg st (CPEvent.incoming (Except.ok
          { type_id := CPTypeId.PlayerSessionUpdate
            payload := CPPayload.sessionUpdate status gid }))).1.current_game_id
        = none ∧
      (cpLoopStep cfg st (CPEvent.incoming (Except.ok
          { type_id := CPTypeId.PlayerSessionUpdate
            payload := CPPayload.sessionUpdate status gid }))).2.sinkAttempts
        = [OutgoingMessage.playerSessionUpdate status none]) ∧
    (∀ g : Int, gid = some g →
      (cpLoopStep cfg st (CPEvent.incoming (Except.ok
          { type_id := CPTypeId.PlayerSessionUpdate
            payload := CPPayload.sessionUpdate status gid }))).1.nodes.selected_node_id
        = st.nodes.selected_node_id ∧
      (cpLoopStep cfg st (CPEvent.incoming (Except.ok
          { type_id := CPTypeId.PlayerSessionUpdate
            payload := CPPayload.sessionUpdate status gid }))).1.current_game_id
        = some g ∧
      (cpLoopStep cfg st (CPEvent.incoming (Except.ok
          { type_id := CPTypeId.PlayerSessionUpdate
            payload := CPPayload.sessionUpdate status gid }))).2.sinkAttempts
        = [OutgoingMessage.playerSessionUpdate status (some g)]) := by
  constructor
  · intro hg
    subst hg
    simp [cpLoopStep, dispatchPure, NodeRegistry.set_selected_node, h]
  · intro g hg
    subst hg
    simp [cpLoopStep, dispatchPure, NodeRegistry.set_selected_node, h]

/-- C7 witness: from a state with node 7 selected and game 3 current, a
session update with no game id clears both and emits one message; one
with game id 5 keeps the selection and stores 5. -/
theorem session_update_dispatch_witness :
    ((cpLoopStep { sendOk := true, sinkErr := none } stSel7
        (CPEvent.incoming (Except.ok
          { type_id := CPTypeId.PlayerSessionUpdate
            payload := CPPayload.sessionUpdate PlayerStatus.Idle
              none }))).1.nodes.selected_node_id = none ∧
      (cpLoopStep { sendOk := true, sinkErr := none } stSel7
        (CPEvent.incoming (Except.ok
          { type_id := CPTypeId.PlayerSessionUpdate
            payload := CPPayload.sessionUpdate PlayerStatus.Idle
              none }))).1.current_game_id = none ∧
      (cpLoopStep { sendOk := true, sinkErr := none } stSel7
        (CPEvent.incoming (Except.ok
          { type_id := CPTypeId.PlayerSessionUpdate
            payload := CPPayload.sessionUpdate PlayerStatus.Idle
              none }))).2.sinkAttempts =
        [OutgoingMessage.playerSessionUpdate PlayerStatus.Idle none]) ∧
    ((cpLoopStep { sendOk := true, sinkErr := none } stSel7
        (CPEvent.incoming (Except.ok
          { type_id := CPTypeId.PlayerSessionUpdate
            payload := CPPayload.sessionUpdate PlayerStatus.InGame
              (some 5) }))).1.nodes.selected_node_id =
        stSel7.nodes.selected_node_id ∧
      (cpLoopStep { sendOk := true, sinkErr := none } stSel7
        (CPEvent.incoming (Except.ok
          { type_id := CPTypeId.PlayerSessionUpdate
            payload := CPPayload.sessionUpdate PlayerStatus.InGame
              (some 5) }))).1.current_game_id = some 5 ∧
      (cpLoopStep { sendOk := true, sinkErr := none } stSel7
        (CPEvent.incoming (Except.ok
          { type_id := CPTypeId.PlayerSessionUpdate
            payload := CPPayload.sessionUpdate PlayerStatus.InGame
              (some 5) }))).2.sinkAttempts =
        [OutgoingMessage.playerSessionUpdate PlayerStatus.InGame (some 5)]) :=
  ⟨(session_update_dispatch { sendOk := true, sinkErr := none } stSel7
      PlayerStatus.Idle none rfl).1 rfl,
   (session_update_dispatch { sendOk := true, sinkErr := none } stSel7
      PlayerStatus.InGame (some 5) rfl).2 5 rfl⟩

/-- C3 counterexample: the claim as stated fails — an exit caused by a
send error on the outbound branch is not preceded by any `Disconnect`
emission: the loop merely logs and breaks. -/
theorem cp_exit_disconnect_counterexample :
    ¬ (∀ (cfg : CPConfig) (st : CPState) (ev : CPEvent),
        (cpLoopStep cfg st ev).2.exited = true →
        ev ≠ CPEvent.outgoing none →
        ∃ m, OutgoingMessage.disconnect DisconnectReason.Unknown m ∈
          (cpLoopStep cfg st ev).2.sinkAttempts) := by
  intro hclaim
  rcases hclaim { sendOk := false, sinkErr := none } st0
      (CPEvent.outgoing (some pingFrame)) (by decide) (by decide) with ⟨m, hm⟩
  simp [cpLoopStep] at hm

/-- C3 (amended): among the worker-loop exits, exactly the
receive-error, dispatch-error and user-sink-error exits attempt a
best-effort `Disconnect{Unknown, "<phase>: <err>"}`; send-error exits
(outbound send and ping-echo send) and the sender-dropped exit are
silent. -/
theorem cp_exit_disconnect_amended (cfg : CPConfig) (st : CPState)
    (ev : CPEvent) (hex : (cpLoopStep cfg st ev).2.exited = true) :
    ((∃ m, OutgoingMessage.disconnect DisconnectReason.Unknown m ∈
        (cpLoopStep cfg st ev).2.sinkAttempts) ↔
      ((∃ e, ev = CPEvent.incoming (Except.error e)) ∨
       (∃ f, ev = CPEvent.incoming (Except.ok f) ∧
          f.type_id ≠ CPTypeId.Ping))) ∧
    (∀ e, ev = CPEvent.incoming (Except.error e) →
      (cpLoopStep cfg st ev).2.sinkAttempts =
        [OutgoingMessage.disconnect DisconnectReason.Unknown ("recv: " ++ e)]) ∧
    (∀ f st2 e, ev = CPEvent.incoming (Except.ok f) →
      f.type_id ≠ CPTypeId.Ping →
      dispatchPure st f = (st2, Except.error e) →
      (cpLoopStep cfg st ev).2.sinkAttempts =
        [OutgoingMessage.disconnect DisconnectReason.Unknown
          ("dispatch: " ++ e)]) ∧
    (∀ f st2 msg e, ev = CPEvent.incoming (Except.ok f) →
      f.type_id ≠ CPTypeId.Ping →
      dispatchPure st f = (st2, Except.ok msg) →
      cfg.sinkErr = some e →
      (cpLoopStep cfg st ev).2.sinkAttempts =
        [msg, OutgoingMessage.disconnect DisconnectReason.Unknown
          ("dispatch: " ++ e)]) := by
  refine ⟨?_, ?_, ?_, ?_⟩
  · cases ev with
    | outgoing o =>
      cases o <;> simp [cpLoopStep]
    | incoming r =>
      cases r with
      | error e => simp [cpLoopStep]
      | ok f =>
        by_cases hping : f.type_id = CPTypeId.Ping
        · simp [cpLoopStep, hping]
        · rcases hd : dispatchPure st f with ⟨st2, rr⟩
          cases rr with
          | ok m =>
            cases hs : cfg.sinkErr with
            | none =>
              simp [cpLoopStep, hping, hd, hs] at hex
            | some e =>
              simp only [cpLoopStep, if_neg hping, hd, hs]
              constructor
              · intro _
                exact Or.inr ⟨f, rfl, hping⟩
              · intro _
                exact ⟨"dispatch: " ++ e, by simp⟩
          | error e =>
            simp only [cpLoopStep, if_neg hping, hd]
            constructor
            · intro _
              exact Or.inr ⟨f, rfl, hping⟩
            · intro _
              exact ⟨"dispatch: " ++ e, by simp⟩
  · intro e he
    subst he
    simp [cpLoopStep]
  · intro f st2 e he hping hd
    subst he
    simp [cpLoopStep, hping, hd]
  · intro f st2 msg e he hping hd hs
    subst he
    simp [cpLoopStep, hping, hd, hs]

/-- C3 witness: a receive error produces exactly the best-effort
`Disconnect` with the `recv` phase prefix. -/
theorem cp_exit_disconnect_amended_witness :
    (cpLoopStep { sendOk := true, sinkErr := none } st0
        (CPEvent.incoming (Except.error "broken pipe"))).2.sinkAttempts =
      [OutgoingMessage.disconnect DisconnectReason.Unknown
        ("recv: " ++ "broken pipe")] :=
  (cp_exit_disconnect_amended { sendOk := true, sinkErr := none } st0
      (CPEvent.incoming (Except.error "broken pipe")) rfl).2.1
    "broken pipe" rfl

/-- C10 witness: a 3-byte input is zero-padded, a 25-byte input is
truncated to its first 20 bytes. -/
theorem mapsha1_unpack_total_witness :
    MapSha1.unpack [1, 2, 3] =
      Except.ok ([1, 2, 3] ++ List.replicate (20 - [1, 2, 3].length) 0) ∧
    MapSha1.unpack (List.range 25) = Except.ok ((List.range 25).take 20) :=
  ⟨(mapsha1_unpack_total [1, 2, 3]).2.2 (by decide),
   (mapsha1_unpack_total (List.range 25)).2.1 (by decide)⟩

end W3CFlo
